import Mathlib

/-!
Verification of the `rust-file-downloader` repository: a shallow embedding of
`src/downloader/mod.rs` (the `Downloader`, its extension inference and hashing)
and `src/downloader/fetcher/mock_fetcher.rs` (the scripted test fetcher),
together with proofs of the specified properties.

Bytes are modelled as `Nat` (each `< 256` in practice), byte bodies as
`List Nat`, file paths as `String`, and the on-disk cache directory as an
explicit state record threaded through the operations.
-/

set_option autoImplicit false

namespace FileDownloader

/-- `Response` from `src/downloader/mod.rs`: the normalized fetch outcome.
`ok body mime` carries the raw body bytes and the optional Content-Type. -/
inductive Response where
  | ok : List Nat → Option String → Response
  | invalidBody : Response
  | notFound : Response
  | networkError : Response
  deriving DecidableEq

/-- `DownloadError` from `src/downloader/mod.rs`. -/
inductive DownloadError where
  | notFound : DownloadError
  | networkError : DownloadError
  | invalidUrl : DownloadError
  | invalidBody : DownloadError
  deriving DecidableEq

/-- `Download` from `src/downloader/mod.rs`: the success record, holding the
canonicalized source URL and the path of the cached file. -/
structure Download where
  source : String
  file : String
  deriving DecidableEq

/-! ## 64-bit arithmetic and SipHash-1-3

`Downloader::get_hash` uses `std::collections::hash_map::DefaultHasher`,
which is SipHash-1-3 with both keys zero; hashing a `&str` feeds the UTF-8
bytes of the string followed by a single `0xff` byte into the hasher.
We embed that algorithm over `Nat` with explicit reduction modulo `2^64`.
-/

/-- Reduce modulo `2^64`: the wrap-around of Rust's `u64` arithmetic. -/
def wrap64 (x : Nat) : Nat := x % 18446744073709551616

/-- Left rotation of a 64-bit value. -/
def rotl64 (x n : Nat) : Nat := wrap64 (x <<< n) ||| (x >>> (64 - n))

/-- The four 64-bit state words of a SipHash computation. -/
structure SipState where
  v0 : Nat
  v1 : Nat
  v2 : Nat
  v3 : Nat

/-- One SIPROUND permutation. -/
def sipRound (s : SipState) : SipState :=
  let v0 := wrap64 (s.v0 + s.v1)
  let v1 := rotl64 s.v1 13
  let v1 := v1 ^^^ v0
  let v0 := rotl64 v0 32
  let v2 := wrap64 (s.v2 + s.v3)
  let v3 := rotl64 s.v3 16
  let v3 := v3 ^^^ v2
  let v0 := wrap64 (v0 + v3)
  let v3 := rotl64 v3 21
  let v3 := v3 ^^^ v0
  let v2 := wrap64 (v2 + v1)
  let v1 := rotl64 v1 17
  let v1 := v1 ^^^ v2
  let v2 := rotl64 v2 32
  ⟨v0, v1, v2, v3⟩

/-- Absorb one 64-bit message word with `c = 1` compression round. -/
def sipIngest (s : SipState) (m : Nat) : SipState :=
  let s := sipRound { s with v3 := s.v3 ^^^ m }
  { s with v0 := s.v0 ^^^ m }

/-- Little-endian interpretation of a byte list as a natural number. -/
def le64 (bs : List Nat) : Nat := bs.foldr (fun b acc => acc * 256 + b) 0

/-- Absorb all complete 8-byte blocks; return the state and leftover bytes. -/
def sipBlocks : SipState → List Nat → SipState × List Nat
  | s, b0 :: b1 :: b2 :: b3 :: b4 :: b5 :: b6 :: b7 :: rest =>
      sipBlocks (sipIngest s (le64 [b0, b1, b2, b3, b4, b5, b6, b7])) rest
  | s, rest => (s, rest)

/-- SipHash-1-3 of a byte sequence with key `(0, 0)`, as computed by Rust's
`DefaultHasher`: the initial state is the SipHash constants, each 8-byte
block gets one round, the final block packs `len % 256` in the top byte,
and finalization runs three rounds after xoring `0xff` into `v2`. -/
def sipHash13 (bytes : List Nat) : Nat :=
  let s0 : SipState :=
    ⟨0x736f6d6570736575, 0x646f72616e646f6d, 0x6c7967656e657261, 0x7465646279746573⟩
  let sr := sipBlocks s0 bytes
  let b := wrap64 (((bytes.length % 256) <<< 56) ||| le64 sr.2)
  let s := sipIngest sr.1 b
  let s := { s with v2 := s.v2 ^^^ 0xff }
  let s := sipRound (sipRound (sipRound s))
  wrap64 (s.v0 ^^^ s.v1 ^^^ s.v2 ^^^ s.v3)

/-- UTF-8 encoding of one character, as a list of byte values. -/
def charUtf8 (c : Char) : List Nat :=
  let n := c.toNat
  if n < 0x80 then [n]
  else if n < 0x800 then
    [0xC0 ||| (n >>> 6), 0x80 ||| (n &&& 0x3F)]
  else if n < 0x10000 then
    [0xE0 ||| (n >>> 12), 0x80 ||| ((n >>> 6) &&& 0x3F), 0x80 ||| (n &&& 0x3F)]
  else
    [0xF0 ||| (n >>> 18), 0x80 ||| ((n >>> 12) &&& 0x3F),
     0x80 ||| ((n >>> 6) &&& 0x3F), 0x80 ||| (n &&& 0x3F)]

/-- UTF-8 byte sequence of a string. -/
def utf8Bytes (s : String) : List Nat :=
  s.data.foldr (fun c acc => charUtf8 c ++ acc) []

/-- Decimal digit characters of `n`, most significant first, computed with a
fuel argument so the definition reduces structurally; `fuel > n` suffices. -/
def decimalDigitsAux : Nat → Nat → List Char
  | 0, _ => []
  | fuel + 1, n =>
      if n < 10 then [Nat.digitChar n]
      else decimalDigitsAux fuel (n / 10) ++ [Nat.digitChar (n % 10)]

/-- Decimal rendering of a natural number, as produced by `u64::to_string`. -/
def natDecimalString (n : Nat) : String := String.mk (decimalDigitsAux (n + 1) n)

/-- Rust's `str::split (sep)` as a character-list function: `n` occurrences of
the separator yield `n + 1` parts, in order, with empty parts preserved. -/
def splitOnChar (sep : Char) : List Char → List (List Char)
  | [] => [[]]
  | c :: rest =>
      match splitOnChar sep rest with
      | [] => [[c]]
      | g :: gs => if c = sep then [] :: g :: gs else (c :: g) :: gs

namespace Downloader

/-- `Downloader::get_hash`: hash the URL string with `DefaultHasher`
(SipHash-1-3, zero key, over the UTF-8 bytes followed by `0xff`) and render
the 64-bit result in decimal. -/
def get_hash (url : String) : String :=
  natDecimalString (sipHash13 (utf8Bytes url ++ [0xff]))

/-- `Downloader::get_extension_from_mimetype`: split the MIME string on
every occurrence of the character `/`; the split must yield exactly two
parts and the second must be non-empty, and is then returned verbatim. -/
def get_extension_from_mimetype (mime : Option String) : Option String :=
  match mime with
  | none => none
  | some m =>
      match splitOnChar '/' m.data with
      | [_, ext] => if ext = [] then none else some (String.mk ext)
      | _ => none

/-- Modelled from the spec: `Downloader::get_extension_from_content` delegates
to the external `image` crate (`ImageReader::with_guessed_format` followed by
`format.extensions_str()[0]`), which is not part of this repository. Per the
spec it sniffs the leading bytes of the body for a known image signature and
returns that format's canonical extension, or nothing when unrecognized. We
model the common signatures handled by that crate. -/
def get_extension_from_content (body : List Nat) : Option String :=
  if [0x89, 0x50, 0x4E, 0x47, 0x0D, 0x0A, 0x1A, 0x0A].isPrefixOf body then some "png"
  else if [0xFF, 0xD8, 0xFF].isPrefixOf body then some "jpg"
  else if [0x47, 0x49, 0x46, 0x38].isPrefixOf body then some "gif"
  else if [0x42, 0x4D].isPrefixOf body then some "bmp"
  else if [0x52, 0x49, 0x46, 0x46].isPrefixOf body ∧
          [0x57, 0x45, 0x42, 0x50].isPrefixOf (body.drop 8) then some "webp"
  else none

/-- `Downloader::get_extension`: MIME subtype first, then content sniffing,
then the literal fallback `"dat"`. -/
def get_extension (mime : Option String) (body : List Nat) : String :=
  ((get_extension_from_mimetype mime).orElse
    (fun _ => get_extension_from_content body)).getD "dat"

end Downloader

/-- Split a character list at the first occurrence of `://`, returning the
part before it and the part after it. -/
def splitScheme : List Char → Option (List Char × List Char)
  | ':' :: '/' :: '/' :: rest => some ([], rest)
  | c :: rest => (splitScheme rest).map (fun p => (c :: p.1, p.2))
  | [] => none

/-- Modelled from the spec: `Url::parse` comes from the external `url` crate,
not from this repository. Per the spec the input must parse as an absolute
URL (scheme and host required) and is canonicalized; the canonical string is
both the cache key and the stored `source`. We model the scheme as a
non-empty alphabetic prefix before `://`, require a non-empty host, lowercase
the scheme and ensure the authority is followed by a path. -/
def urlParse (s : String) : Option String :=
  match splitScheme s.data with
  | none => none
  | some (schemeCs, restCs) =>
      let host := restCs.takeWhile (fun c => c ≠ '/')
      if schemeCs ≠ [] ∧ schemeCs.all Char.isAlpha ∧ host ≠ [] then
        some (String.mk (schemeCs.map Char.toLower ++ [':', '/', '/'] ++
          (if restCs.contains '/' then restCs else restCs ++ ['/'])))
      else none

/-! ## The mock fetcher

`MockFetcher` (`src/downloader/fetcher/mock_fetcher.rs`) holds a mutable
queue of responses; `fetch` returns `NetworkError` when the queue is empty
and otherwise removes and returns the element at index 0. We model the
queue as an explicit `List Response` state. -/

namespace MockFetcher

/-- `MockFetcher::fetch`: pop the front of the queue, or `NetworkError`
once the queue is exhausted. -/
def fetch (responses : List Response) : Response × List Response :=
  match responses with
  | [] => (Response.networkError, [])
  | r :: rest => (r, rest)

/-- The queue left after `n` successive `fetch` calls starting from `rs`. -/
def queueAfterCalls (rs : List Response) : Nat → List Response
  | 0 => rs
  | n + 1 => (fetch (queueAfterCalls rs n)).2

end MockFetcher

/-! ## The cache directory and the downloader -/

/-- The on-disk cache directory: whether the base directory currently
exists, and the files inside it (file name paired with byte content). -/
structure CacheDir where
  dirExists : Bool
  files : List (String × List Nat)
  deriving DecidableEq

/-- Look up the content of the file named `name`. -/
def CacheDir.lookup (fs : CacheDir) (name : String) : Option (List Nat) :=
  (fs.files.find? (fun p => p.1 = name)).map (fun p => p.2)

/-- `std::fs::write`: create or overwrite the named file with the given
bytes; fails (`none`) when the base directory does not exist, which in the
source makes `download` panic. -/
def CacheDir.write (fs : CacheDir) (name : String) (content : List Nat) :
    Option CacheDir :=
  if fs.dirExists then
    some { fs with files := (name, content) :: fs.files.filter (fun p => p.1 ≠ name) }
  else none

/-- The state of a `Downloader<MockFetcher>`: the absolute base directory
path, the mock fetcher's response queue, and the cache directory contents. -/
structure DownloaderState where
  basePath : String
  queue : List Response
  cache : CacheDir
  deriving DecidableEq

/-- Outcome of one `download` call: the `Result<Download, DownloadError>`,
or `fatal` for the `panic!` taken when the file write fails. -/
inductive DownloadOutcome where
  | ok : Download → DownloadOutcome
  | err : DownloadError → DownloadOutcome
  | fatal : DownloadOutcome
  deriving DecidableEq

namespace Downloader

/-- `Downloader::download`: parse and canonicalize the URL (`InvalidUrl` on
failure, before any fetch), fetch, map the three failure responses to their
`DownloadError` namesakes, and on `Ok { body, mime }` write `body` to
`<base>/<hash(url)>.<extension>` and return the `Download` record. -/
def download (st : DownloaderState) (url : String) :
    DownloadOutcome × DownloaderState :=
  match urlParse url with
  | none => (DownloadOutcome.err DownloadError.invalidUrl, st)
  | some canonical =>
      let fr := MockFetcher.fetch st.queue
      let st1 : DownloaderState := { st with queue := fr.2 }
      match fr.1 with
      | Response.networkError => (DownloadOutcome.err DownloadError.networkError, st1)
      | Response.notFound => (DownloadOutcome.err DownloadError.notFound, st1)
      | Response.invalidBody => (DownloadOutcome.err DownloadError.invalidBody, st1)
      | Response.ok body mime =>
          let ext := get_extension mime body
          let file_name := get_hash canonical
          let file_name_with_ext := file_name ++ "." ++ ext
          let file_path := st.basePath ++ "/" ++ file_name_with_ext
          match st1.cache.write file_name_with_ext body with
          | none => (DownloadOutcome.fatal, st1)
          | some cache1 =>
              (DownloadOutcome.ok ⟨canonical, file_path⟩, { st1 with cache := cache1 })

/-- `Downloader::clear_cache`: recursively remove the base directory;
`none` models the `panic!` taken when removal fails (directory absent). -/
def clear_cache (st : DownloaderState) : Option DownloaderState :=
  if st.cache.dirExists then some { st with cache := ⟨false, []⟩ } else none

end Downloader

/-! ## Concrete scenario states

The states used by the scenario properties of the spec: a base directory
`/cache` that exists and is empty, and a mock fetcher queue holding either
the mocked `Ok` response of the repository's tests or a `NotFound`. -/

/-- The bytes of the mocked body used by the repository's tests. -/
def mockFileContentBytes : List Nat := utf8Bytes "Mocked file content"

/-- Fresh downloader whose queue holds one mocked `Ok` PNG response. -/
def scenarioOkState : DownloaderState :=
  ⟨"/cache", [Response.ok mockFileContentBytes (some "image/png")], ⟨true, []⟩⟩

/-- The same downloader after `clear_cache` removed the base directory. -/
def scenarioClearedState : DownloaderState :=
  ⟨"/cache", [Response.ok mockFileContentBytes (some "image/png")], ⟨false, []⟩⟩

/-- Fresh downloader whose queue holds one `NotFound` response. -/
def scenarioNotFoundState : DownloaderState :=
  ⟨"/cache", [Response.notFound], ⟨true, []⟩⟩

/-! ## Basic lemmas about the mock fetcher -/

lemma fetch_fst (l : List Response) :
    (MockFetcher.fetch l).1 = l.headD Response.networkError := by
  cases l <;> rfl

lemma fetch_snd (l : List Response) : (MockFetcher.fetch l).2 = l.tail := by
  cases l <;> rfl

lemma drop_tail_succ {α : Type} (l : List α) (n : Nat) :
    (l.drop n).tail = l.drop (n + 1) := by
  induction n generalizing l with
  | zero => simp [List.drop_one]
  | succ n ih =>
    cases l with
    | nil => simp
    | cons a t => simp [ih t]

lemma headD_drop {α : Type} (l : List α) (n : Nat) (d : α) :
    (l.drop n).headD d = l.getD n d := by
  induction l generalizing n with
  | nil => simp
  | cons a t ih =>
    cases n with
    | zero => rfl
    | succ n => simp [ih n]

lemma queueAfterCalls_eq_drop (rs : List Response) (n : Nat) :
    MockFetcher.queueAfterCalls rs n = rs.drop n := by
  induction n with
  | zero => rfl
  | succ n ih => simp [MockFetcher.queueAfterCalls, ih, fetch_snd, drop_tail_succ]

/-! ## Lemmas about extension inference -/

lemma get_extension_eq_cases (mime : Option String) (body : List Nat) :
    Downloader.get_extension mime body =
      match Downloader.get_extension_from_mimetype mime with
      | some e => e
      | none =>
          match Downloader.get_extension_from_content body with
          | some e => e
          | none => "dat" := by
  unfold Downloader.get_extension
  cases Downloader.get_extension_from_mimetype mime <;>
    cases Downloader.get_extension_from_content body <;> rfl

lemma mimetype_some_of_split (m : String) (t e : List Char)
    (hs : splitOnChar '/' m.data = [t, e]) (he : e ≠ []) :
    Downloader.get_extension_from_mimetype (some m) = some (String.mk e) := by
  simp [Downloader.get_extension_from_mimetype, hs, he]

/-! ## Lemmas about the cache directory and a successful download -/

lemma find?_filter_key (fl : List (String × List Nat)) (fn other : String)
    (h : other ≠ fn) :
    (fl.filter (fun p => p.1 ≠ fn)).find? (fun p => p.1 = other) =
      fl.find? (fun p => p.1 = other) := by
  rw [List.find?_filter]
  congr 1
  funext a
  by_cases ha : a.1 = other
  · have hano : ¬ a.1 = fn := by rw [ha]; exact h
    simp [ha, hano, h]
  · simp [ha]

lemma lookup_write_cons_self (b : Bool) (fl : List (String × List Nat))
    (fn : String) (body : List Nat) :
    CacheDir.lookup ⟨b, (fn, body) :: fl⟩ fn = some body := by
  simp [CacheDir.lookup, List.find?_cons]

lemma lookup_write_cons_other (b b' : Bool) (fl : List (String × List Nat))
    (fn other : String) (body : List Nat) (h : other ≠ fn) :
    CacheDir.lookup ⟨b, (fn, body) :: fl.filter (fun p => p.1 ≠ fn)⟩ other =
      CacheDir.lookup ⟨b', fl⟩ other := by
  unfold CacheDir.lookup
  rw [List.find?_cons_of_neg _ (by simp only [decide_eq_true_eq]; exact Ne.symm h),
    find?_filter_key fl fn other h]

/-- A successful download, fully computed: the canonical URL becomes the
source, the file path is the base path joined with `<hash>.<extension>`,
the queue advances, and the body is written over any file of that name. -/
lemma download_ok (st : DownloaderState) (url c : String) (body : List Nat)
    (mime : Option String) (rest : List Response)
    (hp : urlParse url = some c)
    (hf : MockFetcher.fetch st.queue = (Response.ok body mime, rest))
    (hd : st.cache.dirExists = true) :
    Downloader.download st url =
      (DownloadOutcome.ok ⟨c, st.basePath ++ "/" ++
          (Downloader.get_hash c ++ "." ++ Downloader.get_extension mime body)⟩,
        ⟨st.basePath, rest,
          ⟨true, (Downloader.get_hash c ++ "." ++ Downloader.get_extension mime body, body) ::
            st.cache.files.filter
              (fun p => p.1 ≠ Downloader.get_hash c ++ "." ++ Downloader.get_extension mime body)⟩⟩) := by
  obtain ⟨bp, q, cache⟩ := st
  obtain ⟨de, fl⟩ := cache
  simp only [CacheDir.dirExists] at hd
  subst hd
  simp [Downloader.download, hp, hf, CacheDir.write]

/-! ## Lemmas about decimal rendering and the hash range -/

lemma digitChar_isDigit : ∀ d : Nat, d < 10 → (Nat.digitChar d).isDigit = true := by decide

lemma decimalDigitsAux_all_digits (fuel n : Nat) :
    (decimalDigitsAux fuel n).all Char.isDigit = true := by
  induction fuel generalizing n with
  | zero => rfl
  | succ f ih =>
    by_cases h : n < 10
    · simp [decimalDigitsAux, h, digitChar_isDigit n h]
    · simp [decimalDigitsAux, h, ih,
        digitChar_isDigit (n % 10) (Nat.mod_lt n (by norm_num))]

lemma decimalDigitsAux_ne_nil (fuel n : Nat) (h : n < fuel) :
    decimalDigitsAux fuel n ≠ [] := by
  cases fuel with
  | zero => omega
  | succ f =>
    by_cases h10 : n < 10
    · simp [decimalDigitsAux, h10]
    · simp [decimalDigitsAux, h10]

lemma natDecimalString_ne_empty (n : Nat) : natDecimalString n ≠ "" := by
  intro hc
  have h2 : decimalDigitsAux (n + 1) n = [] := congrArg String.data hc
  exact decimalDigitsAux_ne_nil (n + 1) n (Nat.lt_succ_self n) h2

lemma natDecimalString_all_digits (n : Nat) :
    (natDecimalString n).data.all Char.isDigit = true :=
  decimalDigitsAux_all_digits (n + 1) n

lemma sipHash13_lt (bytes : List Nat) :
    sipHash13 bytes < 18446744073709551616 := by
  simp only [sipHash13, wrap64]
  exact Nat.mod_lt _ (by norm_num)

/-! ## Non-emptiness of every extension branch -/

lemma mimetype_ne_empty (mime : Option String) (e : String)
    (h : Downloader.get_extension_from_mimetype mime = some e) : e ≠ "" := by
  cases mime with
  | none => cases h
  | some m =>
    simp only [Downloader.get_extension_from_mimetype] at h
    rcases hs : splitOnChar '/' m.data with _ | ⟨a, _ | ⟨b, _ | ⟨c, t⟩⟩⟩ <;> rw [hs] at h
    · cases h
    · cases h
    · by_cases hb : b = []
      · simp [hb] at h
      · simp [hb] at h
        subst h
        intro hc
        exact hb (congrArg String.data hc)
    · cases h

lemma content_ne_empty (body : List Nat) (e : String)
    (h : Downloader.get_extension_from_content body = some e) : e ≠ "" := by
  simp only [Downloader.get_extension_from_content] at h
  split_ifs at h <;> (simp only [Option.some.injEq] at h; subst h; decide)

lemma get_extension_ne_empty (mime : Option String) (body : List Nat) :
    Downloader.get_extension mime body ≠ "" := by
  rw [get_extension_eq_cases]
  cases hm : Downloader.get_extension_from_mimetype mime with
  | some e => exact mimetype_ne_empty mime e hm
  | none =>
    cases hc : Downloader.get_extension_from_content body with
    | some e => exact content_ne_empty body e hc
    | none => decide

/-! ## Claim theorems (part 1) -/

/-- C6: the mock fetcher returns its pre-programmed responses one per call
in FIFO order (after `n` calls the queue is the original list with its first
`n` entries removed, and the next call returns entry `n`), and every call
made once the queue is exhausted returns `NetworkError`. -/
theorem C6_mock_fetcher_fifo (rs : List Response) (n : Nat) :
    MockFetcher.queueAfterCalls rs n = rs.drop n ∧
    (MockFetcher.fetch (MockFetcher.queueAfterCalls rs n)).1 =
      rs.getD n Response.networkError ∧
    MockFetcher.fetch [] = (Response.networkError, []) := by
  refine ⟨queueAfterCalls_eq_drop rs n, ?_, rfl⟩
  rw [queueAfterCalls_eq_drop, fetch_fst, headD_drop]

/-- C2: `download` returns `Err(InvalidUrl)` exactly when the URL fails to
parse as an absolute URL, and in that case the whole state — in particular
the scripted fetcher's queue — is returned untouched. -/
theorem C2_invalid_url_iff (st : DownloaderState) (url : String) :
    ((Downloader.download st url).1 = DownloadOutcome.err DownloadError.invalidUrl ↔
      urlParse url = none) ∧
    (urlParse url = none →
      Downloader.download st url = (DownloadOutcome.err DownloadError.invalidUrl, st)) := by
  cases hp : urlParse url with
  | none => simp [Downloader.download, hp]
  | some c =>
    have hne : (Downloader.download st url).1 ≠ DownloadOutcome.err DownloadError.invalidUrl := by
      rcases hf : MockFetcher.fetch st.queue with ⟨r, rest⟩
      cases r with
      | ok body mime =>
          rcases hw : (st.cache.write
              (Downloader.get_hash c ++ "." ++ Downloader.get_extension mime body) body) with _ | c1 <;>
            simp [Downloader.download, hp, hf, hw]
      | invalidBody => simp [Downloader.download, hp, hf]
      | notFound => simp [Downloader.download, hp, hf]
      | networkError => simp [Downloader.download, hp, hf]
    constructor
    · constructor
      · intro h; exact absurd h hne
      · intro h; cases h
    · intro h; cases h

/-- C3: when the fetcher answers `NetworkError`, `NotFound` or `InvalidBody`
on a valid absolute URL, `download` returns the identically named
`DownloadError` and the cache directory contents are unchanged (only the
fetcher queue advances). -/
theorem C3_error_mapping (st : DownloaderState) (url c : String) (rest : List Response)
    (hp : urlParse url = some c) :
    (MockFetcher.fetch st.queue = (Response.networkError, rest) →
      Downloader.download st url =
        (DownloadOutcome.err DownloadError.networkError, { st with queue := rest }) ∧
      (Downloader.download st url).2.cache = st.cache) ∧
    (MockFetcher.fetch st.queue = (Response.notFound, rest) →
      Downloader.download st url =
        (DownloadOutcome.err DownloadError.notFound, { st with queue := rest }) ∧
      (Downloader.download st url).2.cache = st.cache) ∧
    (MockFetcher.fetch st.queue = (Response.invalidBody, rest) →
      Downloader.download st url =
        (DownloadOutcome.err DownloadError.invalidBody, { st with queue := rest }) ∧
      (Downloader.download st url).2.cache = st.cache) := by
  refine ⟨fun hf => ?_, fun hf => ?_, fun hf => ?_⟩ <;>
    exact ⟨by simp [Downloader.download, hp, hf], by simp [Downloader.download, hp, hf]⟩

/-- C9: the MIME-based extension is the part after the single `/` taken
verbatim (parameters are not stripped, an empty type part is accepted), and
the only rejections are a missing MIME value, a split into other than two
parts (a `/`-count other than one), or an empty subtype. -/
theorem C9_mime_verbatim :
    Downloader.get_extension_from_mimetype (some "image/png; charset=utf-8") =
      some "png; charset=utf-8" ∧
    Downloader.get_extension_from_mimetype (some "/png") = some "png" ∧
    Downloader.get_extension_from_mimetype none = none ∧
    (∀ m : String, (splitOnChar '/' m.data).length ≠ 2 →
      Downloader.get_extension_from_mimetype (some m) = none) ∧
    (∀ (m : String) (t : List Char), splitOnChar '/' m.data = [t, []] →
      Downloader.get_extension_from_mimetype (some m) = none) ∧
    (∀ (m : String) (t e : List Char), splitOnChar '/' m.data = [t, e] → e ≠ [] →
      Downloader.get_extension_from_mimetype (some m) = some (String.mk e)) := by
  refine ⟨by decide, by decide, rfl, ?_, ?_, fun m t e hs he => mimetype_some_of_split m t e hs he⟩
  · intro m h
    rcases hs : splitOnChar '/' m.data with _ | ⟨a, _ | ⟨b, _ | ⟨c, t⟩⟩⟩
    · simp [Downloader.get_extension_from_mimetype, hs]
    · simp [Downloader.get_extension_from_mimetype, hs]
    · exact absurd (by rw [hs]; rfl) h
    · simp [Downloader.get_extension_from_mimetype, hs]
  · intro m t hs
    simp [Downloader.get_extension_from_mimetype, hs]

/-- C9 witness: a MIME value splitting into three parts is rejected. -/
theorem C9_mime_verbatim_witness :
    Downloader.get_extension_from_mimetype (some "image/png/extra") = none :=
  C9_mime_verbatim.2.2.2.1 "image/png/extra" (by decide)

/-- C1: extension priority — a well-formed MIME value with non-empty
subtype decides the extension (regardless of body), the failure of the
MIME route is exactly the absence of such a decomposition, a recognized
image signature decides it next, and otherwise the literal `"dat"` is used;
in particular `image/png` always yields `png`. -/
theorem C1_extension_priority (mime : Option String) (body : List Nat) :
    (∀ (m : String) (t e : List Char), mime = some m → splitOnChar '/' m.data = [t, e] →
      e ≠ [] → Downloader.get_extension mime body = String.mk e) ∧
    (Downloader.get_extension_from_mimetype mime = none ↔
      ¬ ∃ (m : String) (t e : List Char),
        mime = some m ∧ splitOnChar '/' m.data = [t, e] ∧ e ≠ []) ∧
    (∀ e : String, Downloader.get_extension_from_mimetype mime = none →
      Downloader.get_extension_from_content body = some e →
      Downloader.get_extension mime body = e) ∧
    (Downloader.get_extension_from_mimetype mime = none →
      Downloader.get_extension_from_content body = none →
      Downloader.get_extension mime body = "dat") ∧
    Downloader.get_extension (some "image/png") body = "png" := by
  refine ⟨?_, ?_, ?_, ?_, ?_⟩
  · intro m t e hm hs he
    subst hm
    rw [get_extension_eq_cases, mimetype_some_of_split m t e hs he]
  · cases mime with
    | none => simp [Downloader.get_extension_from_mimetype]
    | some m =>
      rcases hs : splitOnChar '/' m.data with _ | ⟨a, _ | ⟨b, _ | ⟨c, t⟩⟩⟩
      · simp [Downloader.get_extension_from_mimetype, hs]
      · simp [Downloader.get_extension_from_mimetype, hs]
      · by_cases hb : b = []
        · subst hb
          simp [Downloader.get_extension_from_mimetype, hs]
        · simp [Downloader.get_extension_from_mimetype, hs, hb]
      · simp [Downloader.get_extension_from_mimetype, hs]
  · intro e h1 h2
    rw [get_extension_eq_cases, h1, h2]
  · intro h1 h2
    rw [get_extension_eq_cases, h1, h2]
  · have h : Downloader.get_extension_from_mimetype (some "image/png") = some "png" := by decide
    rw [get_extension_eq_cases, h]

/-- C1 witness: a `image/gif` MIME value forces extension `gif` on a body
with no image signature. -/
theorem C1_extension_priority_witness :
    Downloader.get_extension (some "image/gif") [1, 2, 3] = "gif" :=
  (C1_extension_priority (some "image/gif") [1, 2, 3]).1 "image/gif"
    "image".data "gif".data rfl (by decide) (by decide)

/-- C2 witness: `download "not-a-url"` fails with `InvalidUrl` and leaves
the queue (and everything else) untouched. -/
theorem C2_invalid_url_iff_witness :
    Downloader.download scenarioOkState "not-a-url" =
      (DownloadOutcome.err DownloadError.invalidUrl, scenarioOkState) :=
  (C2_invalid_url_iff scenarioOkState "not-a-url").2 (by decide)

/-- C3 witness: a queued `NotFound` maps to `Err(NotFound)` with no file
created. -/
theorem C3_error_mapping_witness :
    Downloader.download scenarioNotFoundState "https://example.com/missing.png" =
      (DownloadOutcome.err DownloadError.notFound, ⟨"/cache", [], ⟨true, []⟩⟩) :=
  ((C3_error_mapping scenarioNotFoundState "https://example.com/missing.png"
      "https://example.com/missing.png" [] (by decide)).2.1 (by decide)).1

/-! ## Claim theorems (part 2) -/

/-- C4: on a valid URL with an `Ok { body, mime }` response (and the base
directory in place, as construction guarantees), `download` returns the
canonical URL as `source`, the base path joined with `<hash>.<extension>`
as `file`, and writes `body` verbatim under that name, overwriting any
previous file of that name and leaving every other file untouched. -/
theorem C4_download_success (st : DownloaderState) (url c : String) (body : List Nat)
    (mime : Option String) (rest : List Response)
    (hp : urlParse url = some c)
    (hf : MockFetcher.fetch st.queue = (Response.ok body mime, rest))
    (hd : st.cache.dirExists = true) :
    (Downloader.download st url).1 =
      DownloadOutcome.ok ⟨c, st.basePath ++ "/" ++
        (Downloader.get_hash c ++ "." ++ Downloader.get_extension mime body)⟩ ∧
    (Downloader.download st url).2.cache.lookup
      (Downloader.get_hash c ++ "." ++ Downloader.get_extension mime body) = some body ∧
    (∀ other : String,
      other ≠ Downloader.get_hash c ++ "." ++ Downloader.get_extension mime body →
      (Downloader.download st url).2.cache.lookup other = st.cache.lookup other) ∧
    (Downloader.download st url).2.queue = rest := by
  rw [download_ok st url c body mime rest hp hf hd]
  exact ⟨rfl, lookup_write_cons_self true _ _ body,
    fun other h => lookup_write_cons_other true st.cache.dirExists st.cache.files
      _ other body h, rfl⟩

/-- C4 witness: the mocked PNG scenario evaluated concretely. -/
theorem C4_download_success_witness :
    (Downloader.download scenarioOkState "https://example.com/a.png").1 =
      DownloadOutcome.ok ⟨"https://example.com/a.png", "/cache" ++ "/" ++
        (Downloader.get_hash "https://example.com/a.png" ++ "." ++
          Downloader.get_extension (some "image/png") mockFileContentBytes)⟩ ∧
    (Downloader.download scenarioOkState "https://example.com/a.png").2.cache.lookup
      (Downloader.get_hash "https://example.com/a.png" ++ "." ++
        Downloader.get_extension (some "image/png") mockFileContentBytes) =
      some mockFileContentBytes :=
  ⟨(C4_download_success scenarioOkState "https://example.com/a.png"
      "https://example.com/a.png" mockFileContentBytes (some "image/png") []
      (by decide) (by decide) rfl).1,
   (C4_download_success scenarioOkState "https://example.com/a.png"
      "https://example.com/a.png" mockFileContentBytes (some "image/png") []
      (by decide) (by decide) rfl).2.1⟩

/-- C5: determinism — two downloads of the same URL string with the same
injected `Ok` response, run from any two states over the same base
directory, produce the same file name `<hash(canonical)>.<extension>`, the
same full path, and the same written bytes. -/
theorem C5_determinism (st1 st2 : DownloaderState) (url c : String) (body : List Nat)
    (mime : Option String) (r1 r2 : List Response)
    (hb : st1.basePath = st2.basePath)
    (hp : urlParse url = some c)
    (hf1 : MockFetcher.fetch st1.queue = (Response.ok body mime, r1))
    (hf2 : MockFetcher.fetch st2.queue = (Response.ok body mime, r2))
    (hd1 : st1.cache.dirExists = true) (hd2 : st2.cache.dirExists = true) :
    ∃ fn : String,
      fn = Downloader.get_hash c ++ "." ++ Downloader.get_extension mime body ∧
      (Downloader.download st1 url).1 = DownloadOutcome.ok ⟨c, st1.basePath ++ "/" ++ fn⟩ ∧
      (Downloader.download st2 url).1 = DownloadOutcome.ok ⟨c, st2.basePath ++ "/" ++ fn⟩ ∧
      st1.basePath ++ "/" ++ fn = st2.basePath ++ "/" ++ fn ∧
      (Downloader.download st1 url).2.cache.lookup fn = some body ∧
      (Downloader.download st2 url).2.cache.lookup fn = some body := by
  refine ⟨Downloader.get_hash c ++ "." ++ Downloader.get_extension mime body,
    rfl, ?_, ?_, by rw [hb], ?_, ?_⟩
  · rw [download_ok st1 url c body mime r1 hp hf1 hd1]
  · rw [download_ok st2 url c body mime r2 hp hf2 hd2]
  · rw [download_ok st1 url c body mime r1 hp hf1 hd1]
    exact lookup_write_cons_self true _ _ body
  · rw [download_ok st2 url c body mime r2 hp hf2 hd2]
    exact lookup_write_cons_self true _ _ body

/-- C5 witness: two fresh runs of the mocked PNG scenario agree. -/
theorem C5_determinism_witness :
    ∃ fn : String,
      fn = Downloader.get_hash "https://example.com/a.png" ++ "." ++
        Downloader.get_extension (some "image/png") mockFileContentBytes ∧
      (Downloader.download scenarioOkState "https://example.com/a.png").1 =
        DownloadOutcome.ok ⟨"https://example.com/a.png", "/cache" ++ "/" ++ fn⟩ ∧
      (Downloader.download scenarioOkState "https://example.com/a.png").1 =
        DownloadOutcome.ok ⟨"https://example.com/a.png", "/cache" ++ "/" ++ fn⟩ ∧
      "/cache" ++ "/" ++ fn = "/cache" ++ "/" ++ fn ∧
      (Downloader.download scenarioOkState "https://example.com/a.png").2.cache.lookup fn =
        some mockFileContentBytes ∧
      (Downloader.download scenarioOkState "https://example.com/a.png").2.cache.lookup fn =
        some mockFileContentBytes :=
  C5_determinism scenarioOkState scenarioOkState "https://example.com/a.png"
    "https://example.com/a.png" mockFileContentBytes (some "image/png") [] []
    rfl (by decide) (by decide) (by decide) rfl rfl

/-- C10: every file name produced by a successful download is
`<d>.<e>` where `<d>` is the non-empty decimal rendering of a 64-bit hash
value (all characters decimal digits) and `<e>` is a non-empty extension. -/
theorem C10_file_name_shape (st : DownloaderState) (url c : String) (body : List Nat)
    (mime : Option String) (rest : List Response)
    (hp : urlParse url = some c)
    (hf : MockFetcher.fetch st.queue = (Response.ok body mime, rest))
    (hd : st.cache.dirExists = true) :
    ∃ (d e : String) (n : Nat),
      (Downloader.download st url).1 =
        DownloadOutcome.ok ⟨c, st.basePath ++ "/" ++ (d ++ "." ++ e)⟩ ∧
      (Downloader.download st url).2.cache.lookup (d ++ "." ++ e) = some body ∧
      d ≠ "" ∧ d.data.all Char.isDigit = true ∧ e ≠ "" ∧
      n < 18446744073709551616 ∧ d = natDecimalString n := by
  refine ⟨Downloader.get_hash c, Downloader.get_extension mime body,
    sipHash13 (utf8Bytes c ++ [0xff]), ?_, ?_,
    natDecimalString_ne_empty _, natDecimalString_all_digits _,
    get_extension_ne_empty mime body, sipHash13_lt _, rfl⟩
  · rw [download_ok st url c body mime rest hp hf hd]
  · rw [download_ok st url c body mime rest hp hf hd]
    exact lookup_write_cons_self true _ _ body

/-- C10 witness: the mocked PNG scenario produces such a file name. -/
theorem C10_file_name_shape_witness :
    ∃ (d e : String) (n : Nat),
      (Downloader.download scenarioOkState "https://example.com/a.png").1 =
        DownloadOutcome.ok ⟨"https://example.com/a.png", "/cache" ++ "/" ++ (d ++ "." ++ e)⟩ ∧
      (Downloader.download scenarioOkState "https://example.com/a.png").2.cache.lookup
        (d ++ "." ++ e) = some mockFileContentBytes ∧
      d ≠ "" ∧ d.data.all Char.isDigit = true ∧ e ≠ "" ∧
      n < 18446744073709551616 ∧ d = natDecimalString n :=
  C10_file_name_shape scenarioOkState "https://example.com/a.png"
    "https://example.com/a.png" mockFileContentBytes (some "image/png") []
    (by decide) (by decide) rfl

/-- C7 counterexample: after `clear_cache` removes the base directory, the
very next `download` on the same instance — valid URL, queued `Ok`
response — does not succeed: it reaches the fatal write branch, because
nothing re-validates or recreates the missing directory. -/
theorem C7_counterexample :
    Downloader.clear_cache scenarioOkState = some scenarioClearedState ∧
    (Downloader.download scenarioClearedState "https://example.com/a.png").1 =
      DownloadOutcome.fatal := by
  constructor
  · decide
  · decide

/-- C7 amended: after any successful `clear_cache`, a download with a valid
URL and an `Ok` response always takes the fatal write branch. -/
theorem C7_clear_cache_then_fatal (st st1 : DownloaderState) (url c : String)
    (body : List Nat) (mime : Option String) (rest : List Response)
    (hc : Downloader.clear_cache st = some st1)
    (hp : urlParse url = some c)
    (hf : MockFetcher.fetch st1.queue = (Response.ok body mime, rest)) :
    (Downloader.download st1 url).1 = DownloadOutcome.fatal := by
  have hd : st1.cache = ⟨false, []⟩ := by
    unfold Downloader.clear_cache at hc
    split at hc
    · injection hc with hh
      rw [← hh]
    · cases hc
  simp [Downloader.download, hp, hf, CacheDir.write, hd]

/-- C7 amended witness: the concrete cleared scenario panics on write. -/
theorem C7_clear_cache_then_fatal_witness :
    (Downloader.download scenarioClearedState "https://example.com/a.png").1 =
      DownloadOutcome.fatal :=
  C7_clear_cache_then_fatal scenarioOkState scenarioClearedState
    "https://example.com/a.png" "https://example.com/a.png" mockFileContentBytes
    (some "image/png") [] (by decide) (by decide) (by decide)

/-- C8 counterexample: the body `"Mocked file content"` is 19 bytes, not
20 — the scenario's downloaded file holds exactly 19 bytes. -/
theorem C8_counterexample :
    mockFileContentBytes = utf8Bytes "Mocked file content" ∧
    mockFileContentBytes.length = 19 ∧
    ((Downloader.download scenarioOkState "https://example.com/a.png").2.cache.files.map
      (fun p => p.2.length)) = [19] ∧
    ¬ ((Downloader.download scenarioOkState "https://example.com/a.png").2.cache.files.map
      (fun p => p.2.length)) = [20] := by
  refine ⟨rfl, by decide, by decide, by decide⟩

/-- C8 amended: the mocked scenario succeeds, the file is stored under the
hash of the canonical URL with extension `png`, and holds exactly the 19
bytes of `"Mocked file content"`. -/
theorem C8_scenario_success :
    (Downloader.download scenarioOkState "https://example.com/a.png").1 =
      DownloadOutcome.ok ⟨"https://example.com/a.png",
        "/cache/" ++ (Downloader.get_hash "https://example.com/a.png" ++ "." ++ "png")⟩ ∧
    (Downloader.download scenarioOkState "https://example.com/a.png").2.cache.lookup
      (Downloader.get_hash "https://example.com/a.png" ++ "." ++ "png") =
      some (utf8Bytes "Mocked file content") ∧
    (utf8Bytes "Mocked file content").length = 19 := by
  refine ⟨by decide, by decide, by decide⟩

end FileDownloader
